import Mathlib

/-!
Verification development for the ESP32 MQTT IoT firmware (`mqtt_system.c` and its
tasks).  The C module's global state, its publish/subscribe facade, its event
handlers and its periodic tasks are shallowly embedded as pure Lean functions
over an explicit state record.  Calls into external collaborators (the WiFi
stack, the `esp_mqtt` client, the GPIO driver) are modelled by oracle
parameters for their return values and by an `ExtAction` trace recording what the
embedded code asked the collaborator to do.  Machine integers are modelled as
`Nat` with an explicit `% 2 ^ 32` (resp. `% 2 ^ 64`) where the C code can wrap.
-/

set_option linter.unusedVariables false

/-- `mqtt_statistics_t` from `mqtt_system.h`: all fields are `uint32_t`. -/
structure MqttStatistics where
  total_publicadas : Nat
  total_recebidas : Nat
  falhas_publicacao : Nat
  desconexoes : Nat
  tempo_desconectado_ms : Nat
  ultima_mensagem_ts : Nat
deriving DecidableEq, Repr

/-- The zero-initialised statistics record (`static mqtt_statistics_t s_stats = {0}`
and the `memset(&s_stats, 0, ...)` in `mqtt_system_init`). -/
def zeroStats : MqttStatistics :=
  { total_publicadas := 0, total_recebidas := 0, falhas_publicacao := 0,
    desconexoes := 0, tempo_desconectado_ms := 0, ultima_mensagem_ts := 0 }

/-- The `static` globals of `mqtt_system.c`.  `s_mqtt_client` abstracts the
client handle to "is it non-NULL"; `gpio18_level` / `gpio19_level` are the
output latches of GPIO 18 (lights) and GPIO 19 (air conditioner), which the
code reads back with `gpio_get_level`. -/
structure SysState where
  s_stats : MqttStatistics
  s_mqtt_client : Bool
  s_mqtt_connected : Bool
  s_wifi_retry_num : Nat
  s_temp_low_start_time_ms : Nat
  s_system_initialized : Bool
  gpio18_level : Bool
  gpio19_level : Bool
deriving DecidableEq, Repr

/-- State of the globals right after boot / `init_gpio` (both outputs start low,
all counters zero, no client, nothing connected). -/
def bootState : SysState :=
  { s_stats := zeroStats, s_mqtt_client := false, s_mqtt_connected := false,
    s_wifi_retry_num := 0, s_temp_low_start_time_ms := 0,
    s_system_initialized := false, gpio18_level := false, gpio19_level := false }

/-- Requests the embedded code issues to its external collaborators. -/
inductive ExtAction where
  | wifiConnect : ExtAction
  | mqttSubscribe (topic : String) (qos : Nat) : ExtAction
  | mqttPublish (topic : String) (payload : String) (qos : Nat) (retain : Bool) : ExtAction
  | gpioSet (pin : Nat) (level : Bool) : ExtAction
deriving DecidableEq, Repr

/-- Is the action a subscription request to the MQTT client? -/
def ExtAction.isSubscribe : ExtAction → Bool
  | .mqttSubscribe _ _ => true
  | _ => false

/-- `WIFI_MAX_RETRY` from `mqtt_system.h`. -/
def WIFI_MAX_RETRY : Nat := 5

/-- `MQTT_TOPIC_BASE` from `mqtt_system.h`. -/
def MQTT_TOPIC_BASE : String := "demo/central"

/-- `MQTT_TOPIC_STATUS`. -/
def MQTT_TOPIC_STATUS : String := MQTT_TOPIC_BASE ++ "/status"

/-- `MQTT_TOPIC_COMMANDS`. -/
def MQTT_TOPIC_COMMANDS : String := MQTT_TOPIC_BASE ++ "/comandos"

/-- `MQTT_TOPIC_BOOT`. -/
def MQTT_TOPIC_BOOT : String := MQTT_TOPIC_BASE ++ "/boot"

/-- `const uint64_t TEN_MINUTES_MS = 10 * 60 * 1000` from `ac_monitor_task`. -/
def TEN_MINUTES_MS : Nat := 10 * 60 * 1000

/-- `mqtt_publish_data` (mqtt_system.c:297-339).  `pub_msg_id` is the oracle for
`esp_mqtt_client_publish`'s return value.  Returns the C return value, the new
global state, and the requests issued to the MQTT client.  The counters are
`uint32_t`, hence the `% 2 ^ 32` on increment. -/
def mqtt_publish_data (topic data : String) (len qos : Nat) (retain : Bool)
    (pub_msg_id : Int) (s : SysState) : Int × SysState × List ExtAction :=
  if s.s_mqtt_client = false then
    (-1, { s with s_stats :=
      { s.s_stats with falhas_publicacao := (s.s_stats.falhas_publicacao + 1) % 2 ^ 32 } }, [])
  else if s.s_mqtt_connected = false then
    (-1, { s with s_stats :=
      { s.s_stats with falhas_publicacao := (s.s_stats.falhas_publicacao + 1) % 2 ^ 32 } }, [])
  else
    -- `if (len == 0) len = strlen(data);` — only affects the collaborator call
    let len := if len = 0 then data.length else len
    if pub_msg_id ≥ 0 then
      (pub_msg_id, { s with s_stats :=
        { s.s_stats with total_publicadas := (s.s_stats.total_publicadas + 1) % 2 ^ 32 } },
       [ExtAction.mqttPublish topic data qos retain])
    else
      (pub_msg_id, { s with s_stats :=
        { s.s_stats with falhas_publicacao := (s.s_stats.falhas_publicacao + 1) % 2 ^ 32 } },
       [ExtAction.mqttPublish topic data qos retain])

/-- `mqtt_publish_status` (mqtt_system.c:399-403). -/
def mqtt_publish_status (online : Bool) (pub_msg_id : Int) (s : SysState) :
    Int × SysState × List ExtAction :=
  mqtt_publish_data MQTT_TOPIC_STATUS (if online then "online" else "offline") 0 1 true
    pub_msg_id s

/-- `mqtt_subscribe_topic` (mqtt_system.c:405-425).  `sub_msg_id` is the oracle
for `esp_mqtt_client_subscribe`'s return value.  Note that, unlike
`mqtt_publish_data`, the guard's failure path touches no statistics. -/
def mqtt_subscribe_topic (topic : String) (qos : Nat) (sub_msg_id : Int)
    (s : SysState) : Int × SysState × List ExtAction :=
  if s.s_mqtt_client = false ∨ s.s_mqtt_connected = false then
    (-1, s, [])
  else
    (sub_msg_id, s, [ExtAction.mqttSubscribe topic qos])

/-- `mqtt_unsubscribe_topic` (mqtt_system.c:427-443). -/
def mqtt_unsubscribe_topic (topic : String) (unsub_msg_id : Int)
    (s : SysState) : Int × SysState :=
  if s.s_mqtt_client = false ∨ s.s_mqtt_connected = false then
    (-1, s)
  else
    (unsub_msg_id, s)

/-- `mqtt_reset_statistics` (mqtt_system.c:456-467): saves `desconexoes` and
`tempo_desconectado_ms`, `memset`s the record to zero, restores the two. -/
def mqtt_reset_statistics (s_stats : MqttStatistics) : MqttStatistics :=
  let desconexoes := s_stats.desconexoes
  let tempo_desconectado := s_stats.tempo_desconectado_ms
  { zeroStats with desconexoes := desconexoes,
                   tempo_desconectado_ms := tempo_desconectado }

/-- The MQTT events dispatched to `mqtt_event_handler`.  For `MQTT_EVENT_DATA`
the handler copies the topic and payload and runs `atoi` on the payload;
`value` stands for that `atoi` result and `now_ms` for
`esp_timer_get_time() / 1000ULL` at handling time. -/
inductive MqttEventId where
  | connected : MqttEventId
  | disconnected : MqttEventId
  | data (topic : String) (value : Int) (now_ms : Nat) : MqttEventId
  | error : MqttEventId
  | other (id : Int) : MqttEventId
deriving DecidableEq, Repr

/-- `mqtt_event_handler` (mqtt_system.c:792-905).  Returns the new global state
and the requests issued to collaborators (subscriptions, GPIO writes). -/
def mqtt_event_handler (ev : MqttEventId) (s : SysState) : SysState × List ExtAction :=
  match ev with
  | .connected =>
      let s1 := { s with s_mqtt_connected := true }
      let a1 := (mqtt_subscribe_topic "casa/externo/luminosidade" 1 0 s1).2.2
      let a2 := (mqtt_subscribe_topic "casa/sala/temperatura" 1 0 s1).2.2
      let a3 := (mqtt_subscribe_topic MQTT_TOPIC_COMMANDS 1 0 s1).2.2
      let a4 := (mqtt_subscribe_topic "demo/config/#" 0 0 s1).2.2
      (s1, a1 ++ a2 ++ a3 ++ a4)
  | .disconnected =>
      ({ s with s_mqtt_connected := false,
                s_stats := { s.s_stats with
                  desconexoes := (s.s_stats.desconexoes + 1) % 2 ^ 32 } }, [])
  | .data topic value now_ms =>
      let st := { s.s_stats with
        total_recebidas := (s.s_stats.total_recebidas + 1) % 2 ^ 32,
        ultima_mensagem_ts := now_ms % 2 ^ 32 }
      let s1 := { s with s_stats := st }
      if topic = "casa/externo/luminosidade" then
        if value < 3 then
          ({ s1 with gpio18_level := true }, [ExtAction.gpioSet 18 true])
        else
          ({ s1 with gpio18_level := false }, [ExtAction.gpioSet 18 false])
      else if topic = "casa/sala/temperatura" then
        if value > 23 then
          ({ s1 with gpio19_level := true, s_temp_low_start_time_ms := 0 },
           [ExtAction.gpioSet 19 true])
        else if value < 20 then
          if s1.gpio19_level = true then
            if s1.s_temp_low_start_time_ms = 0 then
              ({ s1 with s_temp_low_start_time_ms := now_ms }, [])
            else
              (s1, [])
          else
            ({ s1 with s_temp_low_start_time_ms := 0 }, [])
        else
          ({ s1 with s_temp_low_start_time_ms := 0 }, [])
      else
        (s1, [])
  | .error => (s, [])
  | .other _ => (s, [])

/-- The WiFi/IP events dispatched to `wifi_event_handler`. -/
inductive WifiEventId where
  | staStart : WifiEventId
  | staDisconnected : WifiEventId
  | gotIp : WifiEventId
deriving DecidableEq, Repr

/-- `wifi_event_handler` (mqtt_system.c:761-790). -/
def wifi_event_handler (ev : WifiEventId) (s : SysState) : SysState × List ExtAction :=
  match ev with
  | .staStart => (s, [ExtAction.wifiConnect])
  | .staDisconnected =>
      if s.s_wifi_retry_num < WIFI_MAX_RETRY then
        ({ s with s_wifi_retry_num := s.s_wifi_retry_num + 1 }, [ExtAction.wifiConnect])
      else
        (s, [])
  | .gotIp => ({ s with s_wifi_retry_num := 0 }, [])

/-- One iteration of the `wifi_watchdog_task` loop body (mqtt_system.c:1012-1033),
after its 30 s delay.  `wifi_up` is the oracle for
`esp_wifi_sta_get_ap_info(...) == ESP_OK`. -/
def wifi_watchdog_step (wifi_up : Bool) (s : SysState) : SysState × List ExtAction :=
  if wifi_up = true then
    (s, [])
  else
    ({ s with s_wifi_retry_num := 0 }, [ExtAction.wifiConnect])

/-- One iteration of the `ac_monitor_task` loop body (mqtt_system.c:964-1009),
after its 10 s delay.  `current_time_ms` is the oracle for
`esp_timer_get_time() / 1000ULL`; the elapsed-time subtraction is the C
`uint64_t` subtraction, wrapping modulo `2 ^ 64`. -/
def ac_monitor_tick (current_time_ms : Nat) (s : SysState) : SysState :=
  if s.gpio19_level = true then
    if s.s_temp_low_start_time_ms > 0 then
      let elapsed_time_ms :=
        (2 ^ 64 + current_time_ms - s.s_temp_low_start_time_ms) % 2 ^ 64
      if elapsed_time_ms ≥ TEN_MINUTES_MS then
        { s with gpio19_level := false, s_temp_low_start_time_ms := 0 }
      else
        s
    else
      s
  else
    { s with s_temp_low_start_time_ms := 0 }

/-- `n` consecutive `ac_monitor_task` iterations at 10 s (= 10000 ms) cadence,
the `k`-th iteration observing clock value `t0 + 10000 * k`. -/
def acTicksFrom (t0 : Nat) : Nat → SysState → SysState
  | 0, s => s
  | k + 1, s => ac_monitor_tick (t0 + 10000 * (k + 1)) (acTicksFrom t0 k s)

/-- `ac_monitor_task` iterations at an arbitrary list of clock values. -/
def ticksAt : List Nat → SysState → SysState
  | [], s => s
  | tm :: rest, s => ticksAt rest (ac_monitor_tick tm s)

/-- The arguments of one `mqtt_publish_data` call together with the collaborator's
oracle answer for it. -/
structure PublishAttempt where
  topic : String
  data : String
  len : Nat
  qos : Nat
  retain : Bool
  msg_id : Int
deriving DecidableEq, Repr

/-- Run a sequence of `mqtt_publish_data` calls, threading the global state. -/
def runPublishAttempts : List PublishAttempt → SysState → SysState
  | [], s => s
  | a :: l, s =>
      runPublishAttempts l
        (mqtt_publish_data a.topic a.data a.len a.qos a.retain a.msg_id s).2.1

/-- `ESP_OK`. -/
def ESP_OK : Int := 0

/-- `ESP_FAIL`. -/
def ESP_FAIL : Int := -1

/-- `ESP_ERR_TIMEOUT` (0x107). -/
def ESP_ERR_TIMEOUT : Int := 263

/-- Oracle answers for the external calls `mqtt_system_init` makes: whether each
fallible phase succeeds, whether the CONNECTED event arrived during
`wait_for_mqtt_connection`, the message ids for the start-up publishes, and the
formatted boot-info payload. -/
structure InitEnv where
  nvs_ok : Bool
  wifi_ok : Bool
  wifi_conn_ok : Bool
  mqtt_init_ok : Bool
  mqtt_conn : Bool
  tasks_ok : Bool
  status_msg_id : Int
  boot_msg_id : Int
  boot_payload : String
deriving DecidableEq, Repr

/-- The initialization phases of `mqtt_system_init`, in program order. -/
inductive InitPhase where
  | gpio | nvs | netif | eventLoop | statsClear
  | wifi | wifiWait | mqtt | mqttWait | tasks | publishOnline | publishBoot
deriving DecidableEq, Repr

/-- `mqtt_system_init` (mqtt_system.c:117-236), hardware build (no
`CONFIG_QEMU_MODE`).  Returns the `esp_err_t`, the new global state, and the
list of initialization phases that were executed.  The `s_mqtt_connected`
flag after `wait_for_mqtt_connection` reflects whether the asynchronous
CONNECTED event arrived during the wait (oracle `env.mqtt_conn`); an MQTT
wait timeout is non-fatal (degraded mode). -/
def mqtt_system_init (env : InitEnv) (s : SysState) : Int × SysState × List InitPhase :=
  if s.s_system_initialized = true then
    (ESP_OK, s, [])
  else
    -- FASE 1: init_gpio (always ESP_OK; drives both outputs low), init_nvs,
    -- esp_netif_init, esp_event_loop_create_default, memset(&s_stats, 0, ...)
    let s1 := { s with gpio18_level := false, gpio19_level := false }
    if env.nvs_ok = false then
      (ESP_FAIL, s1, [InitPhase.gpio, InitPhase.nvs])
    else
      let s2 := { s1 with s_stats := zeroStats }
      let phase1 := [InitPhase.gpio, InitPhase.nvs, InitPhase.netif,
                     InitPhase.eventLoop, InitPhase.statsClear]
      -- FASE 2: init_wifi, wait_for_wifi_connection(30)
      if env.wifi_ok = false then
        (ESP_FAIL, s2, phase1 ++ [InitPhase.wifi])
      else if env.wifi_conn_ok = false then
        (ESP_ERR_TIMEOUT, s2, phase1 ++ [InitPhase.wifi, InitPhase.wifiWait])
      -- FASE 3: init_mqtt, wait_for_mqtt_connection(20) (timeout non-fatal)
      else if env.mqtt_init_ok = false then
        (ESP_FAIL, s2, phase1 ++ [InitPhase.wifi, InitPhase.wifiWait, InitPhase.mqtt])
      else
        let s3 := { s2 with s_mqtt_client := true, s_mqtt_connected := env.mqtt_conn }
        let phase2 := phase1 ++ [InitPhase.wifi, InitPhase.wifiWait,
                                 InitPhase.mqtt, InitPhase.mqttWait]
        -- FASE 4: create_tasks
        if env.tasks_ok = false then
          (ESP_FAIL, s3, phase2 ++ [InitPhase.tasks])
        else if s3.s_mqtt_connected = true then
          -- publish "online" status and the boot-info message
          let r1 := mqtt_publish_status true env.status_msg_id s3
          let r2 := mqtt_publish_data MQTT_TOPIC_BOOT env.boot_payload 0 1 false
                      env.boot_msg_id r1.2.1
          (ESP_OK, { r2.2.1 with s_system_initialized := true },
           phase2 ++ [InitPhase.tasks, InitPhase.publishOnline, InitPhase.publishBoot])
        else
          (ESP_OK, { s3 with s_system_initialized := true },
           phase2 ++ [InitPhase.tasks])

/-!  Concrete states used by witnesses and counterexamples. -/

/-- A fully up-and-running state: client created, session up, system initialized. -/
def readyState : SysState :=
  { bootState with s_mqtt_client := true, s_mqtt_connected := true,
                   s_system_initialized := true }

/-- Client created but broker session currently down. -/
def mqttDownState : SysState :=
  { bootState with s_mqtt_client := true, s_mqtt_connected := false,
                   s_system_initialized := true }

/-- Link-retry counter already at `WIFI_MAX_RETRY`. -/
def wifiExhaustedState : SysState :=
  { readyState with s_wifi_retry_num := 5 }

/-- Running state with the air conditioner output ON and its delay timer unarmed. -/
def acOnState : SysState :=
  { readyState with gpio19_level := true }

/-- Running state with the air conditioner output ON and its delay timer armed at 3 ms. -/
def acArmedState : SysState :=
  { readyState with gpio19_level := true, s_temp_low_start_time_ms := 3 }

/-- The actuator-rule invariant of the temperature rule: the delay timer is
armed only while the air-conditioner output is ON. -/
def AcInv (s : SysState) : Prop :=
  s.s_temp_low_start_time_ms ≠ 0 → s.gpio19_level = true

instance (s : SysState) : Decidable (AcInv s) := by
  unfold AcInv; infer_instance

/-- A concrete pair of publish attempts: one accepted by the client
(`msg_id = 3`), one rejected (`msg_id = -1`). -/
def demoAttempts : List PublishAttempt :=
  [{ topic := MQTT_TOPIC_STATUS, data := "online", len := 0, qos := 1,
     retain := true, msg_id := 3 },
   { topic := MQTT_TOPIC_BOOT, data := "boot", len := 4, qos := 1,
     retain := false, msg_id := -1 }]

/-- A concrete all-success initialization environment. -/
def happyInitEnv : InitEnv :=
  { nvs_ok := true, wifi_ok := true, wifi_conn_ok := true, mqtt_init_ok := true,
    mqtt_conn := true, tasks_ok := true, status_msg_id := 1, boot_msg_id := 2,
    boot_payload := "bootinfo" }


/-- **C9**: `mqtt_reset_statistics` leaves `desconexoes` and
`tempo_desconectado_ms` exactly as they were and sets every other field of the
statistics record (`total_publicadas`, `total_recebidas`, `falhas_publicacao`,
`ultima_mensagem_ts`) to 0. -/
theorem reset_statistics_frame (st : MqttStatistics) :
    (mqtt_reset_statistics st).total_publicadas = 0
    ∧ (mqtt_reset_statistics st).total_recebidas = 0
    ∧ (mqtt_reset_statistics st).falhas_publicacao = 0
    ∧ (mqtt_reset_statistics st).ultima_mensagem_ts = 0
    ∧ (mqtt_reset_statistics st).desconexoes = st.desconexoes
    ∧ (mqtt_reset_statistics st).tempo_desconectado_ms = st.tempo_desconectado_ms := by
  refine ⟨rfl, rfl, rfl, rfl, rfl, rfl⟩

/-- **C7**: for every incoming reading on `casa/externo/luminosidade`, the
lights output becomes ON exactly when the value is `< 3` and OFF otherwise,
regardless of the previous system state: the resulting output is purely a
function of the latest sample. -/
theorem illumination_rule_pure (s : SysState) (v : Int) (now_ms : Nat) :
    (mqtt_event_handler (.data "casa/externo/luminosidade" v now_ms) s).1.gpio18_level
      = decide (v < 3) := by
  by_cases hv : v < 3 <;>
    simp [mqtt_event_handler, hv]

/-- **C6**: temperature-rule arming is idempotent — while the air-conditioner
output is ON and the delay timer is already armed (`s_temp_low_start_time_ms ≠ 0`),
a further reading below 20 leaves the start timestamp (and the output) unchanged. -/
theorem temp_arming_idempotent (s : SysState) (v : Int) (now_ms : Nat)
    (hon : s.gpio19_level = true)
    (harmed : s.s_temp_low_start_time_ms ≠ 0)
    (hv : v < 20) :
    (mqtt_event_handler (.data "casa/sala/temperatura" v now_ms) s).1.s_temp_low_start_time_ms
      = s.s_temp_low_start_time_ms
    ∧ (mqtt_event_handler (.data "casa/sala/temperatura" v now_ms) s).1.gpio19_level
      = s.gpio19_level := by
  have hgt : ¬ v > 23 := by omega
  simp [mqtt_event_handler, hgt, hv, hon, harmed]

/-- Witness for `temp_arming_idempotent` at a concrete armed state. -/
theorem temp_arming_idempotent_witness :
    acArmedState.gpio19_level = true
    ∧ acArmedState.s_temp_low_start_time_ms ≠ 0
    ∧ (19 : Int) < 20
    ∧ (mqtt_event_handler (.data "casa/sala/temperatura" 19 500) acArmedState).1.s_temp_low_start_time_ms
        = acArmedState.s_temp_low_start_time_ms :=
  ⟨by decide, by decide, by decide,
   (temp_arming_idempotent acArmedState 19 500 (by decide) (by decide) (by decide)).1⟩

/-- **C1 (counterexample)**: a subscribe attempted while the session is down
does return the failure value `-1`, but it does NOT increment
`falhas_publicacao` — refuting the claim that every publish/subscribe attempt
in that situation increments the failure counter. -/
theorem session_down_subscribe_counterexample :
    (mqtt_subscribe_topic MQTT_TOPIC_COMMANDS 1 7 mqttDownState).1 = -1
    ∧ mqttDownState.s_mqtt_connected = false
    ∧ ¬ ((mqtt_subscribe_topic MQTT_TOPIC_COMMANDS 1 7 mqttDownState).2.1.s_stats.falhas_publicacao
          = mqttDownState.s_stats.falhas_publicacao + 1) := by
  refine ⟨by decide, by decide, by decide⟩

/-- **C1 (amended)**: whenever the client handle is absent or the session is
down, `mqtt_publish_data` returns `-1`, increments `falhas_publicacao` and
issues nothing to the messaging client — for all topics, payloads, lengths,
QoS and retain arguments; under the same conditions `mqtt_subscribe_topic`
returns `-1` and issues nothing to the client, but leaves the whole global
state (in particular all statistics counters) unchanged. -/
theorem session_down_publish_subscribe (topic data : String) (len qos : Nat)
    (retain : Bool) (mid : Int) (s : SysState)
    (hdown : s.s_mqtt_client = false ∨ s.s_mqtt_connected = false) :
    (mqtt_publish_data topic data len qos retain mid s).1 = -1
    ∧ (mqtt_publish_data topic data len qos retain mid s).2.1.s_stats.falhas_publicacao
        = (s.s_stats.falhas_publicacao + 1) % 2 ^ 32
    ∧ (mqtt_publish_data topic data len qos retain mid s).2.2 = []
    ∧ (mqtt_subscribe_topic topic qos mid s).1 = -1
    ∧ (mqtt_subscribe_topic topic qos mid s).2.1 = s
    ∧ (mqtt_subscribe_topic topic qos mid s).2.2 = [] := by
  cases hc : s.s_mqtt_client <;> cases hm : s.s_mqtt_connected <;>
    simp_all [mqtt_publish_data, mqtt_subscribe_topic]

/-- Witness for `session_down_publish_subscribe`: a concrete publish and
subscribe against a session-down state. -/
theorem session_down_publish_subscribe_witness :
    (mqttDownState.s_mqtt_client = false ∨ mqttDownState.s_mqtt_connected = false)
    ∧ (mqtt_publish_data MQTT_TOPIC_STATUS "online" 0 1 true 5 mqttDownState).1 = -1
    ∧ (mqtt_publish_data MQTT_TOPIC_STATUS "online" 0 1 true 5 mqttDownState).2.1.s_stats.falhas_publicacao
        = (mqttDownState.s_stats.falhas_publicacao + 1) % 2 ^ 32 :=
  ⟨by decide,
   (session_down_publish_subscribe MQTT_TOPIC_STATUS "online" 0 1 true 5 mqttDownState
      (by decide)).1,
   (session_down_publish_subscribe MQTT_TOPIC_STATUS "online" 0 1 true 5 mqttDownState
      (by decide)).2.1⟩

/-- **C2 (counterexample)**: the subscription batch issued by
`mqtt_event_handler` on `MQTT_EVENT_CONNECTED` consists of 4 subscribe
requests, not 6. -/
theorem connected_batch_counterexample :
    ((mqtt_event_handler .connected mqttDownState).2).length = 4
    ∧ ¬ (((mqtt_event_handler .connected mqttDownState).2).length = 6) := by
  refine ⟨by decide, by decide⟩

/-- **C2 (amended)**: on a session-established event (`MQTT_EVENT_CONNECTED`,
with the client handle present) the handler issues exactly the fixed batch of
4 subscriptions — `casa/externo/luminosidade` (QoS 1), `casa/sala/temperatura`
(QoS 1), `demo/central/comandos` (QoS 1), `demo/config/#` (QoS 0) — once; on
every other MQTT event the handler issues no subscription at all. -/
theorem connected_subscription_batch (s : SysState) (ev : MqttEventId)
    (hclient : s.s_mqtt_client = true)
    (hev : ev ≠ .connected) :
    (mqtt_event_handler .connected s).2
      = [ExtAction.mqttSubscribe "casa/externo/luminosidade" 1,
         ExtAction.mqttSubscribe "casa/sala/temperatura" 1,
         ExtAction.mqttSubscribe MQTT_TOPIC_COMMANDS 1,
         ExtAction.mqttSubscribe "demo/config/#" 0]
    ∧ ((mqtt_event_handler ev s).2).filter ExtAction.isSubscribe = [] := by
  constructor
  · simp [mqtt_event_handler, mqtt_subscribe_topic, hclient]
  · cases ev with
    | connected => exact absurd rfl hev
    | disconnected => simp [mqtt_event_handler]
    | data topic v now =>
        simp only [mqtt_event_handler]
        split_ifs <;> simp [ExtAction.isSubscribe]
    | error => simp [mqtt_event_handler]
    | other i => simp [mqtt_event_handler]

/-- Witness for `connected_subscription_batch`: the concrete batch on a
reconnect from `mqttDownState`, and no subscriptions on a disconnect event. -/
theorem connected_subscription_batch_witness :
    (mqtt_event_handler .connected mqttDownState).2
      = [ExtAction.mqttSubscribe "casa/externo/luminosidade" 1,
         ExtAction.mqttSubscribe "casa/sala/temperatura" 1,
         ExtAction.mqttSubscribe MQTT_TOPIC_COMMANDS 1,
         ExtAction.mqttSubscribe "demo/config/#" 0]
    ∧ ((mqtt_event_handler .disconnected mqttDownState).2).filter ExtAction.isSubscribe = [] :=
  ⟨(connected_subscription_batch mqttDownState .disconnected (by decide) (by decide)).1,
   (connected_subscription_batch mqttDownState .disconnected (by decide) (by decide)).2⟩

/-- **C4 (counterexample)**: even after the WiFi retry counter has reached
`WIFI_MAX_RETRY`, the WiFi watchdog task still issues a connect attempt (and
resets the counter) whenever it observes the link down — refuting the claim
that no further connect attempt is ever issued by the system once the retries
are exhausted. -/
theorem wifi_retry_exhausted_counterexample :
    wifiExhaustedState.s_wifi_retry_num = WIFI_MAX_RETRY
    ∧ (wifi_watchdog_step false wifiExhaustedState).2 = [ExtAction.wifiConnect]
    ∧ (wifi_watchdog_step false wifiExhaustedState).1.s_wifi_retry_num = 0 := by
  refine ⟨by decide, by decide, by decide⟩

/-- **C4 (amended)**: on a link-lost event with `s_wifi_retry_num < WIFI_MAX_RETRY`
the event handler issues a reconnect attempt and increments the counter, and
once the counter has reached `WIFI_MAX_RETRY` the event handler itself issues
no further attempt and leaves the state unchanged; a successful link
establishment (got-IP) resets the counter to 0.  The event handler's bounded
retry is not system-wide, however: the WiFi watchdog task, whenever it observes
the link down, resets the counter to 0 and issues a fresh connect attempt. -/
theorem wifi_retry_policy (s : SysState) :
    (s.s_wifi_retry_num < WIFI_MAX_RETRY →
       wifi_event_handler .staDisconnected s
         = ({ s with s_wifi_retry_num := s.s_wifi_retry_num + 1 }, [ExtAction.wifiConnect]))
    ∧ (WIFI_MAX_RETRY ≤ s.s_wifi_retry_num →
       wifi_event_handler .staDisconnected s = (s, []))
    ∧ wifi_event_handler .gotIp s = ({ s with s_wifi_retry_num := 0 }, [])
    ∧ wifi_watchdog_step false s = ({ s with s_wifi_retry_num := 0 }, [ExtAction.wifiConnect])
    ∧ wifi_watchdog_step true s = (s, []) := by
  refine ⟨fun h => ?_, fun h => ?_, rfl, by simp [wifi_watchdog_step], by simp [wifi_watchdog_step]⟩
  · simp [wifi_event_handler, h]
  · simp [wifi_event_handler, Nat.not_lt.mpr h]

/-- Witness for `wifi_retry_policy`: a link-lost event below the bound issues a
reconnect, and the watchdog restarts the retries from an exhausted state. -/
theorem wifi_retry_policy_witness :
    wifi_event_handler .staDisconnected readyState
      = ({ readyState with s_wifi_retry_num := 1 }, [ExtAction.wifiConnect])
    ∧ wifi_event_handler .staDisconnected wifiExhaustedState = (wifiExhaustedState, [])
    ∧ (wifi_watchdog_step false wifiExhaustedState).1.s_wifi_retry_num = 0 :=
  ⟨(wifi_retry_policy readyState).1 (by decide),
   (wifi_retry_policy wifiExhaustedState).2.1 (by decide),
   by rw [(wifi_retry_policy wifiExhaustedState).2.2.2.1]⟩

/-- **C5**: the invariant `s_temp_low_start_time_ms ≠ 0 → gpio19_level = true`
holds in the initial state (output OFF, timer 0) and is preserved by every MQTT
event (in particular every temperature reading) and by every iteration of the
periodic delayed-shutoff checker. -/
theorem ac_invariant_preserved :
    AcInv bootState
    ∧ (∀ (ev : MqttEventId) (s : SysState), AcInv s → AcInv (mqtt_event_handler ev s).1)
    ∧ (∀ (tm : Nat) (s : SysState), AcInv s → AcInv (ac_monitor_tick tm s)) := by
  refine ⟨by decide, fun ev s h => ?_, fun tm s h => ?_⟩
  · cases ev with
    | connected => intro hne; exact h hne
    | disconnected => intro hne; exact h hne
    | data topic v now =>
        simp only [mqtt_event_handler]
        split_ifs <;> intro hne <;> simp_all [AcInv]
    | error => exact h
    | other i => exact h
  · simp only [ac_monitor_tick]
    split_ifs <;> intro hne <;> simp_all [AcInv]

/-- Witness for `ac_invariant_preserved`: preservation through a concrete low
temperature reading on an armed state and through a concrete checker tick. -/
theorem ac_invariant_preserved_witness :
    AcInv bootState
    ∧ AcInv (mqtt_event_handler (.data "casa/sala/temperatura" 19 500) acArmedState).1
    ∧ AcInv (ac_monitor_tick 900 acArmedState) :=
  ⟨ac_invariant_preserved.1,
   ac_invariant_preserved.2.1 _ acArmedState (by decide),
   ac_invariant_preserved.2.2 900 acArmedState (by decide)⟩

/-- Unfolding equation for one more tick of the 10 s-cadence run. -/
theorem acTicksFrom_succ (t0 k : Nat) (s : SysState) :
    acTicksFrom t0 (k + 1) s
      = ac_monitor_tick (t0 + 10000 * (k + 1)) (acTicksFrom t0 k s) := rfl

/-- A checker tick is a no-op while the output is ON and the armed timer's
elapsed time is still below ten minutes. -/
theorem ac_tick_noop (tm : Nat) (s : SysState)
    (hon : s.gpio19_level = true)
    (harm : 0 < s.s_temp_low_start_time_ms)
    (hsmall : (2 ^ 64 + tm - s.s_temp_low_start_time_ms) % 2 ^ 64 < TEN_MINUTES_MS) :
    ac_monitor_tick tm s = s := by
  simp only [ac_monitor_tick]
  rw [if_pos hon, if_pos harm, if_neg (by omega)]

/-- A checker tick is a no-op while the output is OFF and the timer is cleared. -/
theorem ac_tick_off_fix (tm : Nat) (s : SysState)
    (hoff : s.gpio19_level = false) (hts : s.s_temp_low_start_time_ms = 0) :
    ac_monitor_tick tm s = s := by
  simp only [ac_monitor_tick, hoff]
  cases s
  simp_all

/-- A checker tick is a no-op while the output is ON and the timer unarmed. -/
theorem ac_tick_on_unarmed_fix (tm : Nat) (s : SysState)
    (hon : s.gpio19_level = true) (hts : s.s_temp_low_start_time_ms = 0) :
    ac_monitor_tick tm s = s := by
  simp [ac_monitor_tick, hon, hts]

/-- Armed at `t0` with the output ON, the checker ticks at 10 s cadence change
nothing while fewer than 60 ticks (600 s) have elapsed. -/
theorem acTicksFrom_noop (t0 : Nat) (s : SysState)
    (hon : s.gpio19_level = true) (hts : s.s_temp_low_start_time_ms = t0)
    (ht0 : 0 < t0) :
    ∀ k, k < 60 → acTicksFrom t0 k s = s := by
  intro k
  induction k with
  | zero => intro _; rfl
  | succ n ih =>
      intro hk
      have hn : n < 60 := by omega
      simp only [acTicksFrom, ih hn]
      refine ac_tick_noop _ _ hon (by omega) ?_
      rw [hts]
      have hcancel : 2 ^ 64 + (t0 + 10000 * (n + 1)) - t0 = 2 ^ 64 + 10000 * (n + 1) := by
        omega
      rw [hcancel, Nat.add_mod_left, Nat.mod_eq_of_lt (by omega)]
      unfold TEN_MINUTES_MS
      omega

/-- At the 60th tick after arming (600 s) the checker switches the output OFF
and clears the timer. -/
theorem acTicksFrom_off_at_60 (t0 : Nat) (s : SysState)
    (hon : s.gpio19_level = true) (hts : s.s_temp_low_start_time_ms = t0)
    (ht0 : 0 < t0) :
    acTicksFrom t0 60 s
      = { s with gpio19_level := false, s_temp_low_start_time_ms := 0 } := by
  rw [show (60 : Nat) = 59 + 1 by norm_num, acTicksFrom_succ,
      acTicksFrom_noop t0 s hon hts ht0 59 (by omega)]
  simp only [ac_monitor_tick]
  have helapsed : (2 ^ 64 + (t0 + 10000 * (59 + 1)) - s.s_temp_low_start_time_ms) % 2 ^ 64
      = 600000 := by
    rw [hts]
    have hcancel : 2 ^ 64 + (t0 + 10000 * (59 + 1)) - t0 = 2 ^ 64 + 600000 := by omega
    rw [hcancel, Nat.add_mod_left, Nat.mod_eq_of_lt (by norm_num)]
  rw [if_pos hon, if_pos (show 0 < s.s_temp_low_start_time_ms by omega),
      if_pos (by rw [helapsed]; unfold TEN_MINUTES_MS; omega)]

/-- Once the output is OFF with the timer cleared, any further ticks of the run
change nothing, so from the 60th tick on the run stays in the OFF state. -/
theorem acTicksFrom_off_ge (t0 : Nat) (s : SysState)
    (hon : s.gpio19_level = true) (hts : s.s_temp_low_start_time_ms = t0)
    (ht0 : 0 < t0) :
    ∀ n, 60 ≤ n → acTicksFrom t0 n s
      = { s with gpio19_level := false, s_temp_low_start_time_ms := 0 } := by
  intro n
  induction n with
  | zero => omega
  | succ k ih =>
      intro hk
      rcases Nat.lt_or_ge k 60 with hlt | hge
      · have h60 : k + 1 = 60 := by omega
        rw [h60]
        exact acTicksFrom_off_at_60 t0 s hon hts ht0
      · simp only [acTicksFrom, ih hge]
        exact ac_tick_off_fix _ _ rfl rfl

/-- A sequence of checker ticks at arbitrary clock values changes nothing while
the output is ON and the timer unarmed. -/
theorem ticksAt_on_unarmed_fix (times : List Nat) :
    ∀ s : SysState, s.gpio19_level = true → s.s_temp_low_start_time_ms = 0 →
      ticksAt times s = s := by
  induction times with
  | nil => intro s _ _; rfl
  | cons t rest ih =>
      intro s hon hts
      simp only [ticksAt, ac_tick_on_unarmed_fix t s hon hts]
      exact ih s hon hts

/-- A low reading while the output is ON and the timer unarmed arms the timer
at the reading's clock value (and only bumps the received-message statistics). -/
theorem temp_low_arms (s : SysState) (v : Int) (now_ms : Nat)
    (hon : s.gpio19_level = true) (hts : s.s_temp_low_start_time_ms = 0)
    (hv : v < 20) :
    (mqtt_event_handler (.data "casa/sala/temperatura" v now_ms) s).1
      = { s with
            s_stats := { s.s_stats with
              total_recebidas := (s.s_stats.total_recebidas + 1) % 2 ^ 32,
              ultima_mensagem_ts := now_ms % 2 ^ 32 },
            s_temp_low_start_time_ms := now_ms } := by
  have hgt : ¬ v > 23 := by omega
  simp [mqtt_event_handler, hgt, hv, hon, hts]

/-- A reading at or above the low threshold clears the timer and leaves (or
switches) the output ON, given it was ON. -/
theorem temp_reset_clears (s : SysState) (w : Int) (t1 : Nat)
    (hon : s.gpio19_level = true) (hw : 20 ≤ w) :
    (mqtt_event_handler (.data "casa/sala/temperatura" w t1) s).1.s_temp_low_start_time_ms = 0
    ∧ (mqtt_event_handler (.data "casa/sala/temperatura" w t1) s).1.gpio19_level = true := by
  by_cases hgt : w > 23
  · simp [mqtt_event_handler, hgt]
  · have hlow : ¬ w < 20 := by omega
    simp [mqtt_event_handler, hgt, hlow, hon]

/-- **C3**: starting with the air-conditioner output ON and the timer unarmed,
a first low reading (`v < 20`) at clock `t0 > 0` arms the timer, and under the
periodic checker ticking every 10 s the output transitions to OFF if and only
if the low condition has lasted `T = 10·n ≥ 600` seconds; moreover any
intervening reading `> 23` or in `[20, 23]` resets the timer to unarmed (0)
and prevents the shutoff (all later ticks leave the output ON). -/
theorem temp_delayed_shutoff (s : SysState) (t0 n : Nat) (v w : Int)
    (t1 : Nat) (times : List Nat)
    (hon : s.gpio19_level = true) (hts : s.s_temp_low_start_time_ms = 0)
    (ht0 : 0 < t0) (hv : v < 20) (hw : 20 ≤ w) :
    ((acTicksFrom t0 n
        (mqtt_event_handler (.data "casa/sala/temperatura" v t0) s).1).gpio19_level = false
       ↔ 600 ≤ 10 * n)
    ∧ (mqtt_event_handler (.data "casa/sala/temperatura" w t1)
         (mqtt_event_handler (.data "casa/sala/temperatura" v t0) s).1).1.s_temp_low_start_time_ms = 0
    ∧ (ticksAt times
         (mqtt_event_handler (.data "casa/sala/temperatura" w t1)
           (mqtt_event_handler (.data "casa/sala/temperatura" v t0) s).1).1).gpio19_level
        = true := by
  have harm := temp_low_arms s v t0 hon hts hv
  have hs1on : (mqtt_event_handler (.data "casa/sala/temperatura" v t0) s).1.gpio19_level = true := by
    rw [harm]; exact hon
  have hs1ts : (mqtt_event_handler (.data "casa/sala/temperatura" v t0) s).1.s_temp_low_start_time_ms = t0 := by
    rw [harm]
  have hreset := temp_reset_clears _ w t1 hs1on hw
  refine ⟨?_, hreset.1, ?_⟩
  · rcases Nat.lt_or_ge n 60 with hlt | hge
    · rw [acTicksFrom_noop t0 _ hs1on hs1ts ht0 n hlt, hs1on]
      constructor
      · intro hcontra; exact absurd hcontra (by decide)
      · intro hT; omega
    · rw [acTicksFrom_off_ge t0 _ hs1on hs1ts ht0 n hge]
      constructor
      · intro _; omega
      · intro _; rfl
  · rw [ticksAt_on_unarmed_fix times _ hreset.2 hreset.1]
    exact hreset.2

/-- Witness for `temp_delayed_shutoff`: arming at clock 1 ms with reading 19,
60 ticks (600 s) switch the output OFF; a reading 21 clears the timer and a
later tick leaves the output ON. -/
theorem temp_delayed_shutoff_witness :
    ((acTicksFrom 1 60
        (mqtt_event_handler (.data "casa/sala/temperatura" 19 1) acOnState).1).gpio19_level = false
       ↔ 600 ≤ 10 * 60)
    ∧ (mqtt_event_handler (.data "casa/sala/temperatura" 21 2)
         (mqtt_event_handler (.data "casa/sala/temperatura" 19 1) acOnState).1).1.s_temp_low_start_time_ms = 0
    ∧ (ticksAt [700000]
         (mqtt_event_handler (.data "casa/sala/temperatura" 21 2)
           (mqtt_event_handler (.data "casa/sala/temperatura" 19 1) acOnState).1).1).gpio19_level
        = true :=
  temp_delayed_shutoff acOnState 1 60 19 21 2 [700000]
    (by decide) (by decide) (by decide) (by decide) (by decide)

/-- Each `mqtt_publish_data` call increments (modulo the `uint32_t` width)
exactly one of the two counters: `total_publicadas` on success,
`falhas_publicacao` on failure, leaving the other unchanged. -/
theorem publish_attempt_one_counter (a : PublishAttempt) (s : SysState) :
    ((mqtt_publish_data a.topic a.data a.len a.qos a.retain a.msg_id s).2.1.s_stats.total_publicadas
        = (s.s_stats.total_publicadas + 1) % 2 ^ 32
      ∧ (mqtt_publish_data a.topic a.data a.len a.qos a.retain a.msg_id s).2.1.s_stats.falhas_publicacao
        = s.s_stats.falhas_publicacao)
    ∨ ((mqtt_publish_data a.topic a.data a.len a.qos a.retain a.msg_id s).2.1.s_stats.total_publicadas
        = s.s_stats.total_publicadas
      ∧ (mqtt_publish_data a.topic a.data a.len a.qos a.retain a.msg_id s).2.1.s_stats.falhas_publicacao
        = (s.s_stats.falhas_publicacao + 1) % 2 ^ 32) := by
  simp only [mqtt_publish_data]
  split_ifs
  · exact Or.inr ⟨rfl, rfl⟩
  · exact Or.inr ⟨rfl, rfl⟩
  · exact Or.inl ⟨rfl, rfl⟩
  · exact Or.inr ⟨rfl, rfl⟩

/-- **C8**: for every sequence of publish attempts through the facade, each
attempt bumps exactly one of `total_publicadas` and `falhas_publicacao`, so as
long as the `uint32_t` counters cannot wrap the two counters sum to the
starting sum plus the number of attempts (from zeroed statistics: exactly the
number of attempts). -/
theorem publish_attempts_sum (l : List PublishAttempt) (s : SysState)
    (hbound : s.s_stats.total_publicadas + s.s_stats.falhas_publicacao + l.length < 2 ^ 32) :
    (runPublishAttempts l s).s_stats.total_publicadas
      + (runPublishAttempts l s).s_stats.falhas_publicacao
    = s.s_stats.total_publicadas + s.s_stats.falhas_publicacao + l.length := by
  induction l generalizing s with
  | nil => simp [runPublishAttempts]
  | cons a l ih =>
      simp only [runPublishAttempts]
      simp only [List.length_cons] at hbound ⊢
      rcases publish_attempt_one_counter a s with ⟨h1, h2⟩ | ⟨h1, h2⟩ <;>
      · rw [ih _ (by omega)]
        omega

/-- Witness for `publish_attempts_sum`: two concrete attempts (one accepted,
one rejected) from zeroed statistics sum to 2. -/
theorem publish_attempts_sum_witness :
    readyState.s_stats.total_publicadas + readyState.s_stats.falhas_publicacao
        + demoAttempts.length < 2 ^ 32
    ∧ (runPublishAttempts demoAttempts readyState).s_stats.total_publicadas
        + (runPublishAttempts demoAttempts readyState).s_stats.falhas_publicacao
      = readyState.s_stats.total_publicadas + readyState.s_stats.falhas_publicacao
        + demoAttempts.length :=
  ⟨by decide, publish_attempts_sum demoAttempts readyState (by decide)⟩

/-- **C10**: `mqtt_system_init` is idempotent at the public interface: called
on an already-initialized system it returns `ESP_OK` immediately, re-runs no
initialization phase and modifies nothing; and every `ESP_OK` return leaves
the system marked initialized, so a second call after a successful first one
is exactly such a no-op. -/
theorem mqtt_system_init_idempotent (env env2 : InitEnv) (s : SysState)
    (hinit : s.s_system_initialized = true) :
    mqtt_system_init env s = (ESP_OK, s, [])
    ∧ (∀ s2 : SysState, (mqtt_system_init env2 s2).1 = ESP_OK →
        mqtt_system_init env (mqtt_system_init env2 s2).2.1
          = (ESP_OK, (mqtt_system_init env2 s2).2.1, [])) := by
  constructor
  · simp [mqtt_system_init, hinit]
  · intro s2 hok
    have hinit2 : (mqtt_system_init env2 s2).2.1.s_system_initialized = true := by
      simp only [mqtt_system_init] at hok ⊢
      split_ifs at hok ⊢ <;>
        first
          | rfl
          | assumption
          | exact absurd hok (by simp [ESP_FAIL, ESP_ERR_TIMEOUT, ESP_OK])
    generalize hX : (mqtt_system_init env2 s2).2.1 = X at hinit2 ⊢
    simp [mqtt_system_init, hinit2]

/-- Witness for `mqtt_system_init_idempotent`: concrete repeated initialization
from an initialized state and right after a successful boot-time initialization. -/
theorem mqtt_system_init_idempotent_witness :
    mqtt_system_init happyInitEnv readyState = (ESP_OK, readyState, [])
    ∧ mqtt_system_init happyInitEnv (mqtt_system_init happyInitEnv bootState).2.1
        = (ESP_OK, (mqtt_system_init happyInitEnv bootState).2.1, []) :=
  ⟨(mqtt_system_init_idempotent happyInitEnv happyInitEnv readyState (by decide)).1,
   (mqtt_system_init_idempotent happyInitEnv happyInitEnv readyState (by decide)).2
     bootState (by decide)⟩
